import Mathlib

/-!
Shallow embedding of the TCP listener/socket multiplexer implemented in
src/desktop/tauri-app/src-tauri/src/tcp.rs, together with proofs of the
specified properties of its data model and operations.

Machine integers (the Rust u32 counter) are modelled as Nat with explicit
reduction modulo 2^32 where the source wraps.  Registry hash maps are
modelled as association lists with HashMap lookup/insert/remove semantics.
Background tasks (the accept loop and each connection read pump) are
modelled as pure functions from a script of I/O outcomes to the trace of
emissions and registry effects they perform; external abort of a task is
cutting its trace to a prefix (a Tokio abort cancels the task at an await
point, so the atoms after the cut never execute).
-/

namespace TcpMux

/-- Modulus of the Rust u32 type: the AtomicU32 counter wraps at this bound. -/
def u32Mod : Nat := 2 ^ 32

/-- TcpState.next_id: fetch_add(1, Relaxed) on the AtomicU32 counter.
Returns the old counter value and the wrapped successor that is stored back. -/
def next_id (c : Nat) : Nat × Nat := (c, (c + 1) % u32Mod)

/-- Counter value after k calls to next_id, starting from the initial value 1
set in TcpState::new. -/
def counterAfter : Nat → Nat
  | 0 => 1
  | k + 1 => (next_id (counterAfter k)).2

/-- Value returned by the k-th call (1-indexed) to the ID allocator. -/
def idOfCall (k : Nat) : Nat := (next_id (counterAfter (k - 1))).1

/-- Control events sent as JSON through the channel (enum ControlEvent). -/
inductive ControlEvent where
  | listening (server_id : Nat) (port : Nat)
  | listenError (server_id : Nat) (error : String)
  | accept (server_id : Nat) (socket_id : Nat)
      (remote_address : String) (remote_port : Nat)
  | close (socket_id : Nat) (had_error : Bool)
  | error (socket_id : Nat) (message : String)
deriving DecidableEq, Repr

/-- JSON scalar values appearing in serialized control events. -/
inductive JsonVal where
  | str (s : String)
  | num (n : Nat)
  | bool (b : Bool)
deriving DecidableEq, Repr

/-- Serde serialization of ControlEvent at the JSON-object level:
the serde attributes tag = "type" with rename_all = "snake_case" give the
type tag, and the per-field serde rename attributes give the field names.
Returns the type tag and the ordered field list. -/
def serializeControl : ControlEvent → String × List (String × JsonVal)
  | .listening server_id port =>
      ("listening", [("serverId", .num server_id), ("port", .num port)])
  | .listenError server_id err =>
      ("listen_error", [("serverId", .num server_id), ("error", .str err)])
  | .accept server_id socket_id remote_address remote_port =>
      ("accept", [("serverId", .num server_id), ("socketId", .num socket_id),
        ("remoteAddress", .str remote_address), ("remotePort", .num remote_port)])
  | .close socket_id had_error =>
      ("close", [("socketId", .num socket_id), ("hadError", .bool had_error)])
  | .error socket_id message =>
      ("error", [("socketId", .num socket_id), ("message", .str message)])

/-- Recognizer for the ListenError variant. -/
def isListenError : ControlEvent → Bool
  | .listenError _ _ => true
  | _ => false

/-- u32::to_be_bytes: big-endian 4-byte encoding of a socket id. -/
def u32ToBeBytes (n : Nat) : List Nat :=
  [n / 2 ^ 24 % 256, n / 2 ^ 16 % 256, n / 2 ^ 8 % 256, n % 256]

/-- Big-endian decoding of 4 bytes back to the integer. -/
def beBytesToU32 (bs : List Nat) : Nat :=
  match bs with
  | [a, b, c, d] => a * 2 ^ 24 + b * 2 ^ 16 + c * 2 ^ 8 + d
  | _ => 0

/-- send_data: the data frame is the 4-byte big-endian socket id immediately
followed by the raw payload bytes. -/
def send_data_frame (socket_id : Nat) (data : List Nat) : List Nat :=
  u32ToBeBytes socket_id ++ data

/-- One message on the multiplexed channel: a structured control event
(InvokeResponseBody.Json) or a raw data frame (InvokeResponseBody.Raw). -/
inductive Emission where
  | control (e : ControlEvent)
  | dataFrame (frame : List Nat)
deriving DecidableEq, Repr

-- Registry maps, modelled as association lists with HashMap semantics.

/-- HashMap.remove on the association-list model. -/
def mapRemove {α : Type} (k : Nat) (m : List (Nat × α)) : List (Nat × α) :=
  m.filter (fun p => p.1 != k)

/-- HashMap.get on the association-list model. -/
def mapLookup {α : Type} (k : Nat) : List (Nat × α) → Option α
  | [] => none
  | p :: rest => if p.1 = k then some p.2 else mapLookup k rest

/-- HashMap.insert on the association-list model. -/
def mapInsert {α : Type} (k : Nat) (v : α) (m : List (Nat × α)) : List (Nat × α) :=
  (k, v) :: mapRemove k m

/-- SocketHandle: the exclusive-access write sink (identified by the id of
its Arc-wrapped mutex) and the handle of the background read task. -/
structure SocketHandle where
  writerId : Nat
  recvTask : Nat
deriving DecidableEq, Repr

/-- ServerHandle: the handle of the background accept task and the bound
local address (ip, port). -/
structure ServerHandle where
  acceptTask : Nat
  localAddrIp : String
  localAddrPort : Nat
deriving DecidableEq, Repr

/-- TcpState: the two registries and the shared id counter. -/
structure TcpState where
  servers : List (Nat × ServerHandle)
  sockets : List (Nat × SocketHandle)
  nextCounter : Nat
deriving DecidableEq, Repr

-- -- Write path (tcp_send) --

/-- Atomic steps of tcp_send, recording lock scopes: the registry lock is
taken only around the lookup that clones the writer Arc, and the per-socket
sink mutex is held across the write and flush.  A write action records a
write_all call that wrote all its bytes; writeFailed records a write_all
call that returned an error partway, asserting nothing about how many bytes
reached the sink. -/
inductive SendAction where
  | acquireRegistryLock
  | releaseRegistryLock
  | acquireSinkLock (writerId : Nat)
  | write (writerId : Nat) (bytes : List Nat)
  | writeFailed (writerId : Nat)
  | flush (writerId : Nat)
  | releaseSinkLock (writerId : Nat)
deriving DecidableEq, Repr

/-- Recognizer for the actions that touch a socket sink at all. -/
def touchesSink : SendAction → Bool
  | .acquireSinkLock _ => true
  | .write _ _ => true
  | .writeFailed _ => true
  | .flush _ => true
  | .releaseSinkLock _ => true
  | _ => false

/-- Checks that a block of actions inside the sink lock of writer w acts on
w only and ends with releasing exactly that lock. -/
def sinkBlockOk (w : Nat) : List SendAction → Bool
  | [.releaseSinkLock w'] => w' == w
  | .write w' _ :: more => w' == w && sinkBlockOk w more
  | .writeFailed w' :: more => w' == w && sinkBlockOk w more
  | .flush w' :: more => w' == w && sinkBlockOk w more
  | _ => false

/-- Checks a send trace for the claimed lock discipline: the trace starts
by acquiring and immediately releasing the registry lock (so no global lock
across all sockets is held afterwards, in particular during any write), and
the remainder is either empty or a single block on one writer bracketed by
acquiring and releasing that writer's sink lock, whose interior acts on that
writer only. -/
def lockDisciplineOk : List SendAction → Bool
  | .acquireRegistryLock :: .releaseRegistryLock :: rest =>
      match rest with
      | [] => true
      | .acquireSinkLock w :: more => sinkBlockOk w more
      | _ => false
  | _ => false

/-- Outcomes of the two fallible sink operations performed by tcp_send:
w.write_all(data).await and w.flush().await. -/
structure SinkEnv where
  writeResult : Except String Unit
  flushResult : Except String Unit
deriving Repr

/-- tcp_send, after the transport preamble has produced socket_id and the raw
body bytes: lock the sockets registry, look up the socket (failing with the
not-found error if absent) and clone its writer Arc, release the registry
lock, then lock that socket's sink and call write_all — a write error is
returned as the "write failed" command error — then flush — a flush error
is returned as the "flush failed" command error — and on success return
Response::new(vec![]), the empty response body.  On every return path the
sink mutex guard is dropped (released) when the function returns.  The
result is paired with the trace of lock/write actions the call performs. -/
def tcp_send (env : SinkEnv) (sockets : List (Nat × SocketHandle))
    (socket_id : Nat) (data : List Nat) :
    Except String (List Nat) × List SendAction :=
  match mapLookup socket_id sockets with
  | none =>
      (.error ("socket " ++ toString socket_id ++ " not found"),
       [.acquireRegistryLock, .releaseRegistryLock])
  | some h =>
      match env.writeResult with
      | .error e =>
          (.error ("write failed: " ++ e),
           [.acquireRegistryLock, .releaseRegistryLock,
            .acquireSinkLock h.writerId, .writeFailed h.writerId,
            .releaseSinkLock h.writerId])
      | .ok _ =>
          match env.flushResult with
          | .error e =>
              (.error ("flush failed: " ++ e),
               [.acquireRegistryLock, .releaseRegistryLock,
                .acquireSinkLock h.writerId, .write h.writerId data,
                .releaseSinkLock h.writerId])
          | .ok _ =>
              (.ok [],
               [.acquireRegistryLock, .releaseRegistryLock,
                .acquireSinkLock h.writerId, .write h.writerId data,
                .flush h.writerId, .releaseSinkLock h.writerId])

-- -- Connection pump (read path) --

/-- Outcome of one reader.read(&mut buf) call: Ok with the bytes read
(empty list = 0 bytes = EOF) or an I/O error. -/
inductive ReadResult where
  | ok (bytes : List Nat)
  | ioError (msg : String)
deriving DecidableEq, Repr

/-- A read result that makes the pump loop exit. -/
def isTerminalRead : ReadResult → Bool
  | .ok [] => true
  | .ok (_ :: _) => false
  | .ioError _ => true

/-- One iteration of the pump loop body: the emissions of that iteration and
whether the loop continues. -/
def pumpStep (socket_id : Nat) : ReadResult → List Emission × Bool
  | .ok [] =>
      ([.control (.close socket_id false)], false)
  | .ok (b :: bs) =>
      ([.dataFrame (send_data_frame socket_id (b :: bs))], true)
  | .ioError msg =>
      ([.control (.error socket_id msg), .control (.close socket_id true)], false)

/-- Atoms of the pump task trace: an emission, or the post-loop cleanup that
removes the socket from the registry (state_sockets.lock().await.remove). -/
inductive PumpAtom where
  | emit (e : Emission)
  | cleanupRemove
deriving DecidableEq, Repr

/-- Full trace of the pump task for a script of read outcomes.  An empty or
exhausted script means the task is still suspended awaiting the next read,
so the cleanup atom is not reached; a terminal read breaks out of the loop
and the cleanup atom runs last. -/
def pumpTrace (socket_id : Nat) : List ReadResult → List PumpAtom
  | [] => []
  | .ok [] :: _ =>
      [.emit (.control (.close socket_id false)), .cleanupRemove]
  | .ok (b :: bs) :: rest =>
      .emit (.dataFrame (send_data_frame socket_id (b :: bs)))
        :: pumpTrace socket_id rest
  | .ioError msg :: _ =>
      [.emit (.control (.error socket_id msg)),
       .emit (.control (.close socket_id true)), .cleanupRemove]

/-- Effect of one pump atom on the sockets registry. -/
def applyPumpAtom (socket_id : Nat) (sockets : List (Nat × SocketHandle)) :
    PumpAtom → List (Nat × SocketHandle)
  | .emit _ => sockets
  | .cleanupRemove => mapRemove socket_id sockets

/-- Registry state after the pump has executed a list of atoms. -/
def runPumpAtoms (socket_id : Nat) (sockets : List (Nat × SocketHandle))
    (atoms : List PumpAtom) : List (Nat × SocketHandle) :=
  atoms.foldl (applyPumpAtom socket_id) sockets

/-- Control events appearing in a pump trace. -/
def traceControls (atoms : List PumpAtom) : List ControlEvent :=
  atoms.filterMap fun a =>
    match a with
    | .emit (.control e) => some e
    | _ => none

-- -- Close operations --

/-- tcp_close: remove the socket handle from the registry; if one was
present, abort its recv task (the returned list holds the aborted task
handles).  Always returns Ok. -/
def tcp_close (st : TcpState) (socket_id : Nat) :
    Except String Unit × TcpState × List Nat :=
  let handle := mapLookup socket_id st.sockets
  let st' : TcpState := ⟨st.servers, mapRemove socket_id st.sockets, st.nextCounter⟩
  (.ok (), st',
   match handle with
   | some h => [h.recvTask]
   | none => [])

/-- tcp_server_close: remove the server handle from the registry; if one was
present, abort its accept task.  Always returns Ok.  The sockets registry is
not touched. -/
def tcp_server_close (st : TcpState) (server_id : Nat) :
    Except String Unit × TcpState × List Nat :=
  let handle := mapLookup server_id st.servers
  let st' : TcpState := ⟨mapRemove server_id st.servers, st.sockets, st.nextCounter⟩
  (.ok (), st',
   match handle with
   | some h => [h.acceptTask]
   | none => [])

-- -- Listener creation (tcp_server_create, synchronous phase) --

/-- Outcomes of the environment-dependent steps of tcp_server_create:
the address parse, the bind, and the local_addr query. -/
structure CreateEnv where
  parseResult : Except String Unit
  bindResult : Except String Unit
  localAddrResult : Except String (String × Nat)
deriving Repr

/-- Synchronous phase of tcp_server_create: parse the address, bind, query
the local address — each failure is returned as the command error with no
event emitted — then allocate the server id from the shared counter, emit
the Listening event with the actual bound port, and register the server
handle (acceptTask names the spawned accept loop task).  Returns the command
result, the updated state, and the control events emitted. -/
def tcp_server_create (env : CreateEnv) (acceptTask : Nat) (st : TcpState) :
    Except String Nat × TcpState × List ControlEvent :=
  match env.parseResult with
  | .error e => (.error ("invalid address: " ++ e), st, [])
  | .ok _ =>
    match env.bindResult with
    | .error e => (.error ("bind failed: " ++ e), st, [])
    | .ok _ =>
      match env.localAddrResult with
      | .error e => (.error ("local_addr failed: " ++ e), st, [])
      | .ok localAddr =>
        let alloc := next_id st.nextCounter
        let server_id := alloc.1
        let handle : ServerHandle := ⟨acceptTask, localAddr.1, localAddr.2⟩
        let st' : TcpState :=
          ⟨mapInsert server_id handle st.servers, st.sockets, alloc.2⟩
        (.ok server_id, st', [.listening server_id localAddr.2])

/-- One iteration of the accept loop: an accept error is logged and the loop
continues with no event and no allocation; a successful accept allocates a
socket id from the shared counter and emits the Accept event.  Returns the
allocated socket id (if any), the events emitted, and the updated counter. -/
def acceptIteration (server_id : Nat) (counter : Nat)
    (outcome : Except String (String × Nat)) :
    Option Nat × List ControlEvent × Nat :=
  match outcome with
  | .error _ => (none, [], counter)
  | .ok peer =>
      let alloc := next_id counter
      let socket_id := alloc.1
      (some socket_id,
       [.accept server_id socket_id peer.1 peer.2], alloc.2)

-- -- Helper lemmas --

theorem mapLookup_mapRemove_self {α : Type} (k : Nat) (m : List (Nat × α)) :
    mapLookup k (mapRemove k m) = none := by
  induction m with
  | nil => rfl
  | cons p rest ih =>
      by_cases h : p.1 = k
      · simpa [mapRemove, h] using ih
      · simpa [mapRemove, mapLookup, h] using ih

theorem mapRemove_of_lookup_none {α : Type} (k : Nat) (m : List (Nat × α))
    (h : mapLookup k m = none) : mapRemove k m = m := by
  induction m with
  | nil => rfl
  | cons p rest ih =>
      by_cases hp : p.1 = k
      · simp [mapLookup, hp] at h
      · simp only [mapLookup, if_neg hp] at h
        have hr := ih h
        unfold mapRemove at hr ⊢
        rw [List.filter_cons]
        simp [hp, hr]

theorem mapLookup_mapRemove_ne {α : Type} (k k' : Nat) (m : List (Nat × α))
    (h : k' ≠ k) : mapLookup k' (mapRemove k m) = mapLookup k' m := by
  induction m with
  | nil => rfl
  | cons p rest ih =>
      unfold mapRemove at ih ⊢
      rw [List.filter_cons]
      by_cases hp : p.1 = k
      · have hne : ¬p.1 = k' := by omega
        simp [hp, mapLookup, hne, ih, Ne.symm h]
      · by_cases hq : p.1 = k'
        · simp [hp, mapLookup, hq, h]
        · simp [hp, mapLookup, hq, ih]

theorem counterAfter_closed_form (k : Nat) :
    counterAfter k = (1 + k) % u32Mod := by
  induction k with
  | zero =>
      show 1 = (1 + 0) % u32Mod
      rw [Nat.mod_eq_of_lt]
      norm_num [u32Mod]
  | succ n ih =>
      show (counterAfter n + 1) % u32Mod = (1 + (n + 1)) % u32Mod
      rw [ih, Nat.mod_add_mod]
      exact congrArg (fun t => t % u32Mod) (by omega)

theorem cleanup_mem_pumpTrace (socket_id : Nat) (script : List ReadResult)
    (h : script.any isTerminalRead = true) :
    PumpAtom.cleanupRemove ∈ pumpTrace socket_id script := by
  induction script with
  | nil => simp at h
  | cons r rest ih =>
      match r with
      | .ok [] => simp [pumpTrace]
      | .ok (b :: bs) =>
          simp only [List.any_cons, isTerminalRead, Bool.false_or] at h
          simp only [pumpTrace, List.mem_cons]
          exact Or.inr (ih h)
      | .ioError msg => simp [pumpTrace]

theorem runPumpAtoms_lookup_none (socket_id : Nat) (atoms : List PumpAtom)
    (sockets : List (Nat × SocketHandle))
    (h : mapLookup socket_id sockets = none) :
    mapLookup socket_id (runPumpAtoms socket_id sockets atoms) = none := by
  induction atoms generalizing sockets with
  | nil => exact h
  | cons a rest ih =>
      match a with
      | .emit e =>
          show mapLookup socket_id (runPumpAtoms socket_id sockets rest) = none
          exact ih sockets h
      | .cleanupRemove =>
          show mapLookup socket_id
            (runPumpAtoms socket_id (mapRemove socket_id sockets) rest) = none
          exact ih _ (mapLookup_mapRemove_self _ _)

theorem runPumpAtoms_cleanup_mem (socket_id : Nat) (atoms : List PumpAtom)
    (sockets : List (Nat × SocketHandle))
    (h : PumpAtom.cleanupRemove ∈ atoms) :
    mapLookup socket_id (runPumpAtoms socket_id sockets atoms) = none := by
  induction atoms generalizing sockets with
  | nil => cases h
  | cons a rest ih =>
      cases h with
      | head =>
          show mapLookup socket_id
            (runPumpAtoms socket_id (mapRemove socket_id sockets) rest) = none
          exact runPumpAtoms_lookup_none socket_id rest _
            (mapLookup_mapRemove_self _ _)
      | tail _ hm =>
          match a with
          | .emit e =>
              show mapLookup socket_id
                (runPumpAtoms socket_id sockets rest) = none
              exact ih sockets hm
          | .cleanupRemove =>
              show mapLookup socket_id
                (runPumpAtoms socket_id (mapRemove socket_id sockets) rest) = none
              exact ih _ hm

-- -- Claim theorems --

/-- Claim C1: each iteration of the Connection Pump read loop behaves as
specified: a zero-byte read emits exactly one Close event with hadError
false and exits the loop; a read of N>0 bytes emits one data frame carrying
the socket id and exactly those bytes and the loop continues; a read error
emits an Error event immediately followed by a Close event with hadError
true and exits the loop. -/
theorem pump_loop_iteration_behavior (socket_id : Nat) :
    pumpStep socket_id (.ok []) =
      ([.control (.close socket_id false)], false)
    ∧ (∀ b bs, pumpStep socket_id (.ok (b :: bs)) =
        ([.dataFrame (send_data_frame socket_id (b :: bs))], true))
    ∧ (∀ msg, pumpStep socket_id (.ioError msg) =
        ([.control (.error socket_id msg),
          .control (.close socket_id true)], false))
    ∧ (∀ rest, pumpTrace socket_id (.ok [] :: rest) =
        [.emit (.control (.close socket_id false)), .cleanupRemove])
    ∧ (∀ b bs rest, pumpTrace socket_id (.ok (b :: bs) :: rest) =
        .emit (.dataFrame (send_data_frame socket_id (b :: bs)))
          :: pumpTrace socket_id rest)
    ∧ (∀ msg rest, pumpTrace socket_id (.ioError msg :: rest) =
        [.emit (.control (.error socket_id msg)),
         .emit (.control (.close socket_id true)), .cleanupRemove]) :=
  ⟨rfl, fun _ _ => rfl, fun _ => rfl, fun _ => rfl,
   fun _ _ _ => rfl, fun _ _ => rfl⟩

/-- Counterexample for claim C2: on a registered socket whose write_all
fails, the command returns the synchronous write-failed error, no complete
write of the payload occurs, and no flush happens before returning — so
"if it is registered, the call writes all of bytes to that socket's write
sink and flushes before returning" is false of the program. -/
theorem send_write_failure_counterexample :
    (tcp_send ⟨.error "broken pipe", .ok ()⟩ [(3, ⟨10, 20⟩)] 3 [1, 2]).1 =
      .error ("write failed: " ++ "broken pipe")
    ∧ SendAction.write 10 [1, 2] ∉
        (tcp_send ⟨.error "broken pipe", .ok ()⟩ [(3, ⟨10, 20⟩)] 3 [1, 2]).2
    ∧ SendAction.flush 10 ∉
        (tcp_send ⟨.error "broken pipe", .ok ()⟩ [(3, ⟨10, 20⟩)] 3 [1, 2]).2 := by
  refine ⟨rfl, by decide, by decide⟩

/-- Claim C2 as amended: tcp_send on an unregistered socket id fails with
the not-found error and performs no sink access at all; on a registered id
whose write and flush both succeed it produces the exact action trace in
which the registry lock is released before that socket's sink lock is
acquired, the single write carries the whole payload, and the flush happens
before the sink lock is released; a write or flush failure on a registered
id is surfaced as the synchronous write-failed or flush-failed command
error (with no flush after a failed write); and on every path the trace
satisfies the lock discipline — the registry lock is never held during sink
access, and all sink access is bracketed by exclusive access to that one
socket's sink, so concurrent sends on the same socket id never interleave
within either payload. -/
theorem tcp_send_lookup_and_lock_discipline (env : SinkEnv)
    (sockets : List (Nat × SocketHandle)) (socket_id : Nat) (data : List Nat) :
    (mapLookup socket_id sockets = none →
      (tcp_send env sockets socket_id data).1 =
        .error ("socket " ++ toString socket_id ++ " not found")
      ∧ (tcp_send env sockets socket_id data).2.filter touchesSink = [])
    ∧ (∀ h, mapLookup socket_id sockets = some h →
        env.writeResult = .ok () → env.flushResult = .ok () →
        tcp_send env sockets socket_id data =
          (.ok [],
           [.acquireRegistryLock, .releaseRegistryLock,
            .acquireSinkLock h.writerId, .write h.writerId data,
            .flush h.writerId, .releaseSinkLock h.writerId]))
    ∧ (∀ h er, mapLookup socket_id sockets = some h →
        env.writeResult = .error er →
        (tcp_send env sockets socket_id data).1 =
          .error ("write failed: " ++ er)
        ∧ SendAction.flush h.writerId ∉ (tcp_send env sockets socket_id data).2)
    ∧ (∀ h er, mapLookup socket_id sockets = some h →
        env.writeResult = .ok () → env.flushResult = .error er →
        (tcp_send env sockets socket_id data).1 =
          .error ("flush failed: " ++ er))
    ∧ lockDisciplineOk (tcp_send env sockets socket_id data).2 = true := by
  refine ⟨?_, ?_, ?_, ?_, ?_⟩
  · intro hnone
    constructor
    · simp [tcp_send, hnone]
    · simp [tcp_send, hnone, List.filter, touchesSink]
  · intro h hsome hw hf
    simp [tcp_send, hsome, hw, hf]
  · intro h er hsome hw
    constructor
    · simp [tcp_send, hsome, hw]
    · simp [tcp_send, hsome, hw]
  · intro h er hsome hw hf
    simp [tcp_send, hsome, hw, hf]
  · match hm : mapLookup socket_id sockets with
    | none => simp [tcp_send, hm, lockDisciplineOk]
    | some h =>
      match hw : env.writeResult with
      | .error e => simp [tcp_send, hm, hw, lockDisciplineOk, sinkBlockOk]
      | .ok u =>
        match hf : env.flushResult with
        | .error e => simp [tcp_send, hm, hw, hf, lockDisciplineOk, sinkBlockOk]
        | .ok u2 => simp [tcp_send, hm, hw, hf, lockDisciplineOk, sinkBlockOk]

/-- Witness for C2 as amended at a concrete registered socket, payload and
succeeding sink. -/
theorem tcp_send_lookup_and_lock_discipline_witness :
    tcp_send ⟨.ok (), .ok ()⟩ [(3, ⟨10, 20⟩)] 3 [104, 101, 108, 108, 111] =
      (.ok [],
       [.acquireRegistryLock, .releaseRegistryLock,
        .acquireSinkLock 10, .write 10 [104, 101, 108, 108, 111],
        .flush 10, .releaseSinkLock 10]) :=
  (tcp_send_lookup_and_lock_discipline ⟨.ok (), .ok ()⟩ [(3, ⟨10, 20⟩)] 3
      [104, 101, 108, 108, 111]).2.1 ⟨10, 20⟩ rfl rfl rfl

/-- Counterexample for claim C3: a pump that has read one nonempty chunk and
is then cancelled externally (tcp_close aborts its task while it is
suspended awaiting the next read) executes no further atoms, so its own
cleanup removal never runs — the pump does not remove its handle on the
external-cancellation exit path; the removal there is done by tcp_close
itself before the abort. -/
theorem pump_abort_no_self_cleanup_counterexample :
    PumpAtom.cleanupRemove ∉ pumpTrace 7 [ReadResult.ok [1]] := by
  decide

/-- Claim C3 as amended: when the pump loop exits on its own (the read
script reaches EOF or an error), the trace ends with the pump removing its
own handle and the registry afterwards has no entry for the socket; when the
pump is cancelled externally, tcp_close removes the handle before aborting
the task.  Either way, the registry does not retain the handle of a stopped
read task. -/
theorem pump_exit_registry_cleanup (socket_id : Nat)
    (sockets : List (Nat × SocketHandle)) (script : List ReadResult)
    (st : TcpState) :
    (script.any isTerminalRead = true →
      PumpAtom.cleanupRemove ∈ pumpTrace socket_id script
      ∧ mapLookup socket_id
          (runPumpAtoms socket_id sockets (pumpTrace socket_id script)) = none)
    ∧ mapLookup socket_id ((tcp_close st socket_id).2.1).sockets = none := by
  constructor
  · intro hterm
    have hmem := cleanup_mem_pumpTrace socket_id script hterm
    exact ⟨hmem, runPumpAtoms_cleanup_mem socket_id _ sockets hmem⟩
  · exact mapLookup_mapRemove_self socket_id st.sockets

/-- Witness for C3 as amended: a pump whose second read hits EOF cleans the
registry, and tcp_close leaves no entry. -/
theorem pump_exit_registry_cleanup_witness :
    PumpAtom.cleanupRemove ∈ pumpTrace 2 [ReadResult.ok [5], ReadResult.ok []]
    ∧ mapLookup 2 (runPumpAtoms 2 [(2, ⟨11, 21⟩)]
        (pumpTrace 2 [ReadResult.ok [5], ReadResult.ok []])) = none :=
  (pump_exit_registry_cleanup 2 [(2, ⟨11, 21⟩)]
    [ReadResult.ok [5], ReadResult.ok []] ⟨[], [], 1⟩).1 (by decide)

/-- Claim C4: tcp_close and tcp_server_close always return Ok, and on an
unknown or already-closed id they are no-ops: the state is unchanged and no
task is aborted. -/
theorem close_operations_idempotent (st : TcpState) (id : Nat) :
    (tcp_close st id).1 = .ok ()
    ∧ (tcp_server_close st id).1 = .ok ()
    ∧ (mapLookup id st.sockets = none →
        (tcp_close st id).2.1 = st ∧ (tcp_close st id).2.2 = [])
    ∧ (mapLookup id st.servers = none →
        (tcp_server_close st id).2.1 = st ∧ (tcp_server_close st id).2.2 = []) := by
  refine ⟨rfl, rfl, ?_, ?_⟩
  · intro hnone
    constructor
    · show (⟨st.servers, mapRemove id st.sockets, st.nextCounter⟩ : TcpState) = st
      rw [mapRemove_of_lookup_none id st.sockets hnone]
    · simp [tcp_close, hnone]
  · intro hnone
    constructor
    · show (⟨mapRemove id st.servers, st.sockets, st.nextCounter⟩ : TcpState) = st
      rw [mapRemove_of_lookup_none id st.servers hnone]
    · simp [tcp_server_close, hnone]

/-- Witness for C4: closing the never-allocated id 9 on a state holding one
socket and one server succeeds and changes nothing. -/
theorem close_operations_idempotent_witness :
    (tcp_close ⟨[(1, ⟨0, "a", 80⟩)], [(2, ⟨10, 20⟩)], 3⟩ 9).2.1 =
      (⟨[(1, ⟨0, "a", 80⟩)], [(2, ⟨10, 20⟩)], 3⟩ : TcpState)
    ∧ (tcp_server_close ⟨[(1, ⟨0, "a", 80⟩)], [(2, ⟨10, 20⟩)], 3⟩ 9).2.1 =
      (⟨[(1, ⟨0, "a", 80⟩)], [(2, ⟨10, 20⟩)], 3⟩ : TcpState) :=
  ⟨((close_operations_idempotent ⟨[(1, ⟨0, "a", 80⟩)], [(2, ⟨10, 20⟩)], 3⟩ 9).2.2.1
      rfl).1,
   ((close_operations_idempotent ⟨[(1, ⟨0, "a", 80⟩)], [(2, ⟨10, 20⟩)], 3⟩ 9).2.2.2
      rfl).1⟩

/-- Claim C5: a data frame for socket id S and payload D is exactly the
4-byte big-endian encoding of S followed by the bytes of D: its length is
4 + D.length, its first 4 bytes decode back to S, and the rest is D. -/
theorem data_frame_layout (socket_id : Nat) (data : List Nat)
    (h : socket_id < u32Mod) :
    (send_data_frame socket_id data).length = 4 + data.length
    ∧ beBytesToU32 ((send_data_frame socket_id data).take 4) = socket_id
    ∧ (send_data_frame socket_id data).drop 4 = data := by
  refine ⟨?_, ?_, ?_⟩
  · simp only [send_data_frame, u32ToBeBytes, List.length_append,
      List.length_cons, List.length_nil]
  · show beBytesToU32 [socket_id / 2 ^ 24 % 256, socket_id / 2 ^ 16 % 256,
      socket_id / 2 ^ 8 % 256, socket_id % 256] = socket_id
    simp only [beBytesToU32, u32Mod] at *
    norm_num at *
    omega
  · rfl

/-- Witness for C5 at socket id 258 and a 2-byte payload. -/
theorem data_frame_layout_witness :
    (send_data_frame 258 [9, 10]).length = 4 + 2
    ∧ beBytesToU32 ((send_data_frame 258 [9, 10]).take 4) = 258 :=
  ⟨(data_frame_layout 258 [9, 10] (by norm_num [u32Mod])).1,
   (data_frame_layout 258 [9, 10] (by norm_num [u32Mod])).2.1⟩

/-- Claim C6: closing a listener removes only that listener from the server
registry and aborts only its accept task; the socket registry is unchanged,
other listeners are untouched, and a previously accepted socket remains
independently sendable (tcp_send behaves identically) and closable. -/
theorem server_close_isolates_sockets (st : TcpState) (L S : Nat) :
    ((tcp_server_close st L).2.1).sockets = st.sockets
    ∧ mapLookup L ((tcp_server_close st L).2.1).servers = none
    ∧ (∀ L', L' ≠ L →
        mapLookup L' ((tcp_server_close st L).2.1).servers =
          mapLookup L' st.servers)
    ∧ (∀ h, mapLookup L st.servers = some h →
        (tcp_server_close st L).2.2 = [h.acceptTask])
    ∧ (∀ env data, tcp_send env ((tcp_server_close st L).2.1).sockets S data =
        tcp_send env st.sockets S data)
    ∧ (tcp_close (tcp_server_close st L).2.1 S).1 = .ok () := by
  refine ⟨rfl, mapLookup_mapRemove_self L st.servers, ?_, ?_, ?_, rfl⟩
  · intro L' hne
    exact mapLookup_mapRemove_ne L L' st.servers hne
  · intro h hsome
    simp [tcp_server_close, hsome]
  · intro env data
    rfl

/-- Witness for C6: closing listener 1 leaves listener 5 and socket 2 in
place and aborts exactly task 100. -/
theorem server_close_isolates_sockets_witness :
    mapLookup 5
      ((tcp_server_close
        ⟨[(1, ⟨100, "a", 80⟩), (5, ⟨101, "b", 81⟩)], [(2, ⟨10, 20⟩)], 6⟩ 1).2.1).servers =
      mapLookup 5 ([(1, ⟨100, "a", 80⟩), (5, ⟨101, "b", 81⟩)] : List (Nat × ServerHandle))
    ∧ (tcp_server_close
        ⟨[(1, ⟨100, "a", 80⟩), (5, ⟨101, "b", 81⟩)], [(2, ⟨10, 20⟩)], 6⟩ 1).2.2 = [100] :=
  ⟨(server_close_isolates_sockets
      ⟨[(1, ⟨100, "a", 80⟩), (5, ⟨101, "b", 81⟩)], [(2, ⟨10, 20⟩)], 6⟩ 1 2).2.2.1
      5 (by decide),
   (server_close_isolates_sockets
      ⟨[(1, ⟨100, "a", 80⟩), (5, ⟨101, "b", 81⟩)], [(2, ⟨10, 20⟩)], 6⟩ 1 2).2.2.2.1
      ⟨100, "a", 80⟩ rfl⟩

/-- Counterexample for claim C7: the allocator counter is a u32 whose
fetch_add wraps modulo 2^32, so the 2^32-th call returns 0 — not a non-zero,
strictly increasing value. -/
theorem id_allocator_wrap_counterexample : idOfCall (2 ^ 32) = 0 := by
  show counterAfter (2 ^ 32 - 1) = 0
  rw [counterAfter_closed_form]
  norm_num [u32Mod]

/-- Claim C7 as amended: within the first 2^32 - 1 calls the allocator
returns exactly the call index — strictly increasing, previously unused,
non-zero, starting at 1, and never failing; the shared u32 counter wraps
modulo 2^32 beyond that. -/
theorem id_allocator_below_wrap (k : Nat) (h1 : 1 ≤ k) (h2 : k < u32Mod) :
    idOfCall k = k
    ∧ idOfCall k ≠ 0
    ∧ idOfCall 1 = 1
    ∧ (∀ j, 1 ≤ j → j < k →
        idOfCall j < idOfCall k ∧ idOfCall j ≠ idOfCall k) := by
  have hmain : ∀ m, 1 ≤ m → m < u32Mod → idOfCall m = m := by
    intro m hm1 hm2
    show counterAfter (m - 1) = m
    rw [counterAfter_closed_form]
    have hm : 1 + (m - 1) = m := by omega
    rw [hm]
    exact Nat.mod_eq_of_lt hm2
  refine ⟨hmain k h1 h2, ?_, ?_, ?_⟩
  · rw [hmain k h1 h2]
    omega
  · exact hmain 1 (by omega) (by norm_num [u32Mod])
  · intro j hj1 hjk
    rw [hmain j hj1 (by omega), hmain k h1 h2]
    omega

/-- Witness for C7 as amended at the third call. -/
theorem id_allocator_below_wrap_witness :
    idOfCall 3 = 3 ∧ idOfCall 2 < idOfCall 3 :=
  ⟨(id_allocator_below_wrap 3 (by norm_num) (by norm_num [u32Mod])).1,
   ((id_allocator_below_wrap 3 (by norm_num) (by norm_num [u32Mod])).2.2.2 2
      (by norm_num) (by norm_num)).1⟩

/-- Counterexample for claim C8: a successful tcp_send of a 5-byte payload
returns Response::new(vec![]) — the empty byte list — so the success result
does not carry the byte count of the payload. -/
theorem send_result_not_byte_count_counterexample :
    (tcp_send ⟨.ok (), .ok ()⟩ [(4, ⟨12, 22⟩)] 4
        [104, 101, 108, 108, 111]).1 = Except.ok []
    ∧ ([] : List Nat).length ≠ [104, 101, 108, 108, 111].length :=
  ⟨rfl, by decide⟩

/-- Claim C8 as amended: whenever a send returns success — whatever the
registry contents and sink outcomes were — the response body is empty; the
byte count written is never reported to the caller. -/
theorem send_success_returns_empty (env : SinkEnv)
    (sockets : List (Nat × SocketHandle)) (socket_id : Nat)
    (data bs : List Nat)
    (hok : (tcp_send env sockets socket_id data).1 = .ok bs) :
    bs = [] := by
  match hm : mapLookup socket_id sockets with
  | none => simp [tcp_send, hm] at hok
  | some h =>
    match hw : env.writeResult with
    | .error e => simp [tcp_send, hm, hw] at hok
    | .ok u =>
      match hf : env.flushResult with
      | .error e => simp [tcp_send, hm, hw, hf] at hok
      | .ok u2 =>
          simp [tcp_send, hm, hw, hf] at hok
          exact hok

/-- Witness for C8 as amended: a concrete send that succeeds returns the
empty body. -/
theorem send_success_returns_empty_witness :
    (tcp_send ⟨.ok (), .ok ()⟩ [(6, ⟨13, 23⟩)] 6 [1, 2, 3]).1 = .ok []
    ∧ ([] : List Nat) = [] :=
  ⟨rfl, send_success_returns_empty ⟨.ok (), .ok ()⟩ [(6, ⟨13, 23⟩)] 6
      [1, 2, 3] [] rfl⟩

/-- Counterexample for claim C9: the serialized listening event carries no
field named listenerId — the implementation serializes the field as
serverId. -/
theorem listening_field_name_counterexample :
    "listenerId" ∉ (serializeControl (.listening 1 8080)).2.map Prod.fst
    ∧ "serverId" ∈ (serializeControl (.listening 1 8080)).2.map Prod.fst := by
  constructor
  · simp [serializeControl]
  · simp [serializeControl]

/-- Claim C9 as amended: every control event serializes to a structured
record discriminated by the snake_case type tag with the schema fields,
except that the listener-carrying events name that field serverId instead
of listenerId: listening has serverId and port, listen_error has serverId
and error, accept has serverId, socketId, remoteAddress and remotePort,
close has socketId and hadError, error has socketId and message. -/
theorem control_event_schema (sid sock port rport : Nat)
    (err addr msg : String) (he : Bool) :
    serializeControl (.listening sid port) =
      ("listening", [("serverId", .num sid), ("port", .num port)])
    ∧ serializeControl (.listenError sid err) =
      ("listen_error", [("serverId", .num sid), ("error", .str err)])
    ∧ serializeControl (.accept sid sock addr rport) =
      ("accept", [("serverId", .num sid), ("socketId", .num sock),
        ("remoteAddress", .str addr), ("remotePort", .num rport)])
    ∧ serializeControl (.close sock he) =
      ("close", [("socketId", .num sock), ("hadError", .bool he)])
    ∧ serializeControl (.error sock msg) =
      ("error", [("socketId", .num sock), ("message", .str msg)]) :=
  ⟨rfl, rfl, rfl, rfl, rfl⟩

/-- Claim C10: a ListenError event is never emitted.  An address-parse or
bind failure in tcp_server_create surfaces only as the synchronous command
error with no event on the channel, and none of the event-producing paths —
the create command, an accept-loop iteration, or a pump trace — ever emits
a ListenError event. -/
theorem listen_error_never_emitted (env : CreateEnv) (acceptTask : Nat)
    (st : TcpState) (socket_id server_id counter : Nat)
    (script : List ReadResult) (outcome : Except String (String × Nat)) :
    (∀ er, env.parseResult = .error er →
      (tcp_server_create env acceptTask st).1 =
        .error ("invalid address: " ++ er)
      ∧ (tcp_server_create env acceptTask st).2.2 = [])
    ∧ (∀ er, env.parseResult = .ok () → env.bindResult = .error er →
      (tcp_server_create env acceptTask st).1 =
        .error ("bind failed: " ++ er)
      ∧ (tcp_server_create env acceptTask st).2.2 = [])
    ∧ (∀ e, e ∈ (tcp_server_create env acceptTask st).2.2 →
        isListenError e = false)
    ∧ (∀ e, e ∈ (acceptIteration server_id counter outcome).2.1 →
        isListenError e = false)
    ∧ (∀ e, e ∈ traceControls (pumpTrace socket_id script) →
        isListenError e = false) := by
  refine ⟨?_, ?_, ?_, ?_, ?_⟩
  · intro er hp
    exact ⟨by simp [tcp_server_create, hp], by simp [tcp_server_create, hp]⟩
  · intro er hp hb
    exact ⟨by simp [tcp_server_create, hp, hb],
           by simp [tcp_server_create, hp, hb]⟩
  · intro e he
    match hp : env.parseResult with
    | .error er => simp [tcp_server_create, hp] at he
    | .ok u =>
      match hb : env.bindResult with
      | .error er => simp [tcp_server_create, hp, hb] at he
      | .ok u2 =>
        match hl : env.localAddrResult with
        | .error er => simp [tcp_server_create, hp, hb, hl] at he
        | .ok la =>
            simp [tcp_server_create, hp, hb, hl] at he
            subst he
            rfl
  · intro e he
    match ho : outcome with
    | .error er => simp [acceptIteration, ho] at he
    | .ok peer =>
        simp [acceptIteration, ho] at he
        subst he
        rfl
  · intro e he
    induction script with
    | nil => simp [pumpTrace, traceControls] at he
    | cons r rest ih =>
        match r with
        | .ok [] =>
            simp [pumpTrace, traceControls] at he
            subst he
            rfl
        | .ok (b :: bs) =>
            simp only [pumpTrace, traceControls, List.filterMap_cons] at he ih
            exact ih he
        | .ioError m =>
            simp [pumpTrace, traceControls] at he
            rcases he with h1 | h2
            · subst h1
              rfl
            · subst h2
              rfl

/-- Witness for C10: a create call whose address parse fails returns the
synchronous error and emits nothing. -/
theorem listen_error_never_emitted_witness :
    (tcp_server_create ⟨.error "bad ip", .ok (), .ok ("127.0.0.1", 80)⟩ 0
        ⟨[], [], 1⟩).1 = .error ("invalid address: " ++ "bad ip")
    ∧ (tcp_server_create ⟨.error "bad ip", .ok (), .ok ("127.0.0.1", 80)⟩ 0
        ⟨[], [], 1⟩).2.2 = [] :=
  (listen_error_never_emitted ⟨.error "bad ip", .ok (), .ok ("127.0.0.1", 80)⟩
    0 ⟨[], [], 1⟩ 0 0 0 [] (.ok ("p", 1))).1 "bad ip" rfl

end TcpMux
